import Mathlib

/-!
Shallow embedding of the tabular-extraction engine of the Prosegur
consolidation scripts (`src/prosegur_unificado_v4_2.py`, `src/comsol.py`).

Cells are Lean `String`s.  Python's Unicode helpers are modelled for the
character set this program actually manipulates: accent folding
(`unicodedata`-NFD stripping of combining marks) is a character map over the
Spanish accented letters, uppercasing extends ASCII `toUpper` with the same
letters, and whitespace is the ASCII whitespace set plus the no-break space.
Regular expressions are translated into explicit scanning functions with the
same leftmost-match and backtracking behaviour.
-/

/-- Whitespace as stripped by Python `str.strip` / matched by `\s`
(ASCII whitespace plus the no-break space this program replaces). -/
def isWs (c : Char) : Bool :=
  c = ' ' || c = '\t' || c = '\n' || c = '\r' || c = '\x0b' || c = '\x0c' || c = ' '

/-- Accent folding of one character (`_strip_accents`, NFD + drop combining
marks), modelled for the Spanish letters appearing in these documents. -/
def stripAccentChar (c : Char) : Char :=
  match c with
  | 'Á' => 'A' | 'À' => 'A' | 'Â' => 'A' | 'Ä' => 'A' | 'Ã' => 'A'
  | 'É' => 'E' | 'È' => 'E' | 'Ê' => 'E' | 'Ë' => 'E'
  | 'Í' => 'I' | 'Ì' => 'I' | 'Î' => 'I' | 'Ï' => 'I'
  | 'Ó' => 'O' | 'Ò' => 'O' | 'Ô' => 'O' | 'Ö' => 'O' | 'Õ' => 'O'
  | 'Ú' => 'U' | 'Ù' => 'U' | 'Û' => 'U' | 'Ü' => 'U'
  | 'Ñ' => 'N'
  | 'á' => 'a' | 'à' => 'a' | 'â' => 'a' | 'ä' => 'a' | 'ã' => 'a'
  | 'é' => 'e' | 'è' => 'e' | 'ê' => 'e' | 'ë' => 'e'
  | 'í' => 'i' | 'ì' => 'i' | 'î' => 'i' | 'ï' => 'i'
  | 'ó' => 'o' | 'ò' => 'o' | 'ô' => 'o' | 'ö' => 'o' | 'õ' => 'o'
  | 'ú' => 'u' | 'ù' => 'u' | 'û' => 'u' | 'ü' => 'u'
  | 'ñ' => 'n'
  | _ => c

/-- `_strip_accents`. -/
def stripAccents (s : String) : String :=
  String.mk (s.toList.map stripAccentChar)

/-- Python `str.upper`, modelled for ASCII plus the Spanish accented letters. -/
def upperChar (c : Char) : Char :=
  match c with
  | 'á' => 'Á' | 'à' => 'À' | 'â' => 'Â' | 'ä' => 'Ä' | 'ã' => 'Ã'
  | 'é' => 'É' | 'è' => 'È' | 'ê' => 'Ê' | 'ë' => 'Ë'
  | 'í' => 'Í' | 'ì' => 'Ì' | 'î' => 'Î' | 'ï' => 'Ï'
  | 'ó' => 'Ó' | 'ò' => 'Ò' | 'ô' => 'Ô' | 'ö' => 'Ö' | 'õ' => 'Õ'
  | 'ú' => 'Ú' | 'ù' => 'Ù' | 'û' => 'Û' | 'ü' => 'Ü'
  | 'ñ' => 'Ñ'
  | _ => c.toUpper

/-- Python `str.upper` on a string. -/
def pyUpper (s : String) : String :=
  String.mk (s.toList.map upperChar)

/-- Python `str.strip` (trim whitespace at both ends). -/
def pyStripList (l : List Char) : List Char :=
  ((l.dropWhile isWs).reverse.dropWhile isWs).reverse

/-- Python `str.strip` on a string. -/
def pyStrip (s : String) : String :=
  String.mk (pyStripList s.toList)

/-- Prefix test on character lists. -/
def startsWithCL : List Char → List Char → Bool
  | [], _ => true
  | _ :: _, [] => false
  | a :: as, b :: bs => a = b && startsWithCL as bs

/-- Substring containment on character lists (`needle in hay`). -/
def containsCL (n : List Char) : List Char → Bool
  | [] => startsWithCL n []
  | c :: rest => startsWithCL n (c :: rest) || containsCL n rest

/-- Python `needle in hay` on strings. -/
def containsSub (needle hay : String) : Bool :=
  containsCL needle.toList hay.toList

/-- Case-insensitive prefix test (both sides folded with `upperChar`),
modelling `re.IGNORECASE` literal matching. -/
def startsWithCI : List Char → List Char → Bool
  | [], _ => true
  | _ :: _, [] => false
  | a :: as, b :: bs => upperChar a = upperChar b && startsWithCI as bs

/-- Word character for `\b` (`\w`): alphanumeric, underscore, or a
non-ASCII letter (this program only meets accented letters there). -/
def isWordChar (c : Char) : Bool :=
  c.isAlphanum || c = '_' || decide (c.toNat ≥ 128)

/-- Python `\b`: holds between two (optional) characters when exactly one
side is a word character; out of range counts as non-word. -/
def wordBoundary (a b : Option Char) : Bool :=
  (match a with | some c => isWordChar c | none => false)
    != (match b with | some c => isWordChar c | none => false)

/-- Does `\b pat \b` match at the head of `hay`, with `prev` the character
just before that position? -/
def wbMatchAt (pat : List Char) (prev : Option Char) (hay : List Char) : Bool :=
  startsWithCL pat hay && wordBoundary prev pat.head?
    && wordBoundary pat.getLast? (hay.drop pat.length).head?

/-- `re.search(r'\b' + re.escape(pat) + r'\b', hay)`: scan for a match at
any position. -/
def wordSearchCL (pat : List Char) (prev : Option Char) : List Char → Bool
  | [] => wbMatchAt pat prev []
  | c :: rest => wbMatchAt pat prev (c :: rest) || wordSearchCL pat (some c) rest

/-- Word-bounded search of a literal pattern in a string. -/
def containsWord (pat hay : String) : Bool :=
  wordSearchCL pat.toList none hay.toList

/-- `rx_totales = re.compile(r'\b(TOTAL|SUBTOTAL)\b', re.IGNORECASE)`,
searched on the joined line. -/
def rxTotales (linea : String) : Bool :=
  let u := pyUpper linea
  containsWord "TOTAL" u || containsWord "SUBTOTAL" u

/-- Consume `\d{1,2}` then `/` (greedy with backtracking); returns the
consumed token and the rest. -/
def ddSlashTok : List Char → Option (List Char × List Char)
  | a :: b :: rest =>
    if a.isDigit then
      if b.isDigit then
        match rest with
        | '/' :: r => some ([a, b, '/'], r)
        | _ => none
      else if b = '/' then some ([a, '/'], rest) else none
    else none
  | _ => none

/-- Consume `\d{4}`; returns the consumed digits and the rest. -/
def year4Tok : List Char → Option (List Char × List Char)
  | a :: b :: c :: d :: rest =>
    if a.isDigit && b.isDigit && c.isDigit && d.isDigit then
      some ([a, b, c, d], rest)
    else none
  | _ => none

/-- Consume `\d{1,2}/\d{1,2}/\d{4}`; returns the matched date and the rest. -/
def dateTok (l : List Char) : Option (List Char × List Char) :=
  match ddSlashTok l with
  | none => none
  | some (t1, r1) =>
    match ddSlashTok r1 with
    | none => none
    | some (t2, r2) =>
      match year4Tok r2 with
      | none => none
      | some (t3, r3) => some (t1 ++ t2 ++ t3, r3)

/-- `rx_fecha_cell = re.compile(r'^\s*\d{1,2}/\d{1,2}/\d{4}\s*$')`, full
match of one cell. -/
def isFechaCell (s : String) : Bool :=
  match dateTok (s.toList.dropWhile isWs) with
  | none => false
  | some (_, rest) => rest.all isWs

/-- `rx_fecha_linea = re.compile(r'^\s*(\d{1,2}/\d{1,2}/\d{4})\b')`,
anchored match on the joined line; returns group 1. -/
def matchFechaLinea (s : String) : Option String :=
  match dateTok (s.toList.dropWhile isWs) with
  | none => none
  | some (tok, rest) =>
    if wordBoundary tok.getLast? rest.head? then some (String.mk tok) else none

/-- `_only_digits`: keep decimal digits, preserving leading zeros. -/
def onlyDigits (s : String) : String :=
  String.mk (s.toList.filter Char.isDigit)

/-- `re.search(r'\d', v)`. -/
def hasDigit (s : String) : Bool :=
  s.toList.any Char.isDigit

/-- `_first_non_empty_after(row_vals, start_idx)`. -/
def firstNonEmptyAfter (row : List String) (startIdx : Nat) : Option Nat :=
  ((List.range row.length).drop (startIdx + 1)).find?
    (fun i => pyStrip (row.getD i "") != "")

/-- `_get_cell(row_vals, idx, default)`. -/
def getCell (row : List String) (idx : Option Nat) (dflt : String) : String :=
  match idx with
  | none => dflt
  | some i =>
    if i ≥ row.length then dflt
    else
      let v := pyStrip (row.getD i "")
      if v = "" then dflt else v

/-- `' '.join([c for c in strip_cells if c])` over the stripped cells of a
row: the joined line text every row classifier works on. -/
def lineJoin (cells : List String) : String :=
  String.intercalate " " ((cells.map pyStrip).filter (· ≠ ""))

/-- The accent-folded uppercased joined line (`upper_join` / `linea_up`). -/
def upperJoin (cells : List String) : String :=
  pyUpper (stripAccents (lineJoin cells))

/-- Group 1 of `r'SUCURSAL:\s*([^)]+)\)'` applied right after the literal:
greedy `\s*` with backtracking so that `[^)]+` keeps at least one
character before the first `)`. -/
def capThroughParen (rest : List Char) : Option (List Char) :=
  match rest.findIdx? (· = ')') with
  | none => none
  | some k =>
    if k = 0 then none
    else
      let w := min (rest.takeWhile isWs).length (k - 1)
      some ((rest.drop w).take (k - w))

/-- `re.search(r'SUCURSAL:\s*([^)]+)\)', linea, re.IGNORECASE)`, returning
group 1 (leftmost occurrence of the literal at which the tail matches). -/
def sucursalSearchCL : List Char → Option (List Char)
  | [] => none
  | c :: rest =>
    if startsWithCI "SUCURSAL:".toList (c :: rest) then
      match capThroughParen ((c :: rest).drop "SUCURSAL:".toList.length) with
      | some cap => some cap
      | none => sucursalSearchCL rest
    else sucursalSearchCL rest

/-- The agency captured by the `SUCURSAL:` pattern from a joined line. -/
def sucursalSearch (linea : String) : Option String :=
  (sucursalSearchCL linea.toList).map String.mk

/-- After `AL:`, consume greedy `\s*` then a date (whitespace cannot start a
digit, so only the full run can succeed). -/
def alDateTail (rest : List Char) : Option String :=
  match dateTok (rest.dropWhile isWs) with
  | none => none
  | some (tok, _) => some (String.mk tok)

/-- `re.search(r'AL:\s*(\d{1,2}/\d{1,2}/\d{4})', linea, re.IGNORECASE)`,
returning group 1. -/
def alDateSearchCL : List Char → Option String
  | [] => none
  | c :: rest =>
    if startsWithCI "AL:".toList (c :: rest) then
      match alDateTail ((c :: rest).drop "AL:".toList.length) with
      | some d => some d
      | none => alDateSearchCL rest
    else alDateSearchCL rest

/-- `AL:` date search on a string. -/
def alDateSearch (linea : String) : Option String :=
  alDateSearchCL linea.toList

/-- After `AL`, consume greedy `[:\s]+` then a date (the run cannot end in a
digit, so only the full run can succeed). -/
def alDateTail2 (rest : List Char) : Option String :=
  let run := rest.takeWhile (fun c => c = ':' || isWs c)
  if run.length = 0 then none
  else
    match dateTok (rest.drop run.length) with
    | none => none
    | some (tok, _) => some (String.mk tok)

/-- `re.search(r'AL[:\s]+(\d{1,2}/\d{1,2}/\d{4})', linea, re.IGNORECASE)`,
returning group 1 (the `comsol.py` bank-statement variant). -/
def alDateSearch2CL : List Char → Option String
  | [] => none
  | c :: rest =>
    if startsWithCI "AL".toList (c :: rest) then
      match alDateTail2 ((c :: rest).drop "AL".toList.length) with
      | some d => some d
      | none => alDateSearch2CL rest
    else alDateSearch2CL rest

/-- `AL[:\s]+` date search on a string. -/
def alDateSearch2 (linea : String) : Option String :=
  alDateSearch2CL linea.toList

/-- Does `l` start with `\s+AL:` (inner greedy `\s+` with backtracking)? -/
def innerWsAl (l : List Char) : Bool :=
  let r := (l.takeWhile isWs).length
  decide (r ≥ 1) && (List.range r).any (fun k => startsWithCI "AL:".toList (l.drop (r - k)))

/-- For a fixed outer `\s+` length `w`, the lazy `(.*?)` stops at the least
`j ≥ w` from which `\s+AL:` matches. -/
def findCapFrom (rest : List Char) (w : Nat) : Option Nat :=
  ((List.range (rest.length + 1)).drop w).find? (fun j => innerWsAl (rest.drop j))

/-- Group 1 of `r'ESTADO DE CUENTA DE\s+(.*?)\s+AL:'` right after the
literal: outer `\s+` greedy from its full run down to 1, then the lazy
capture. -/
def estadoCap (rest : List Char) : Option (List Char) :=
  let maxW := (rest.takeWhile isWs).length
  ((List.range maxW).filterMap (fun k =>
    let w := maxW - k
    (findCapFrom rest w).map (fun j => (rest.drop w).take (j - w)))).head?

/-- `re.search(r'ESTADO DE CUENTA DE\s+(.*?)\s+AL:', linea, re.IGNORECASE)`,
returning group 1. -/
def estadoTipoSearchCL : List Char → Option (List Char)
  | [] => none
  | c :: rest =>
    if startsWithCI "ESTADO DE CUENTA DE".toList (c :: rest) then
      match estadoCap ((c :: rest).drop "ESTADO DE CUENTA DE".toList.length) with
      | some cap => some cap
      | none => estadoTipoSearchCL rest
    else estadoTipoSearchCL rest

/-- Statement-type search on a string. -/
def estadoTipoSearch (linea : String) : Option String :=
  (estadoTipoSearchCL linea.toList).map String.mk

/-- The alternatives of `rx_moneda` in `get_ec_banco`
(`prosegur_unificado_v4_2.py`), in the engine's trial order (alternation
order, and for the greedy `S?` the longer form first). -/
def altsMoneda : List (List Char) :=
  ["GUARANIES".toList, "GUARANÍES".toList, "DOLARES".toList, "DÓLARES".toList,
   "EUROS".toList, "EURO".toList, "REALES".toList, "REALE".toList,
   "PESOS".toList, "PESO".toList, "PYG".toList, "USD".toList, "EUR".toList,
   "BRL".toList, "ARS".toList]

/-- The word alternatives of `rx_moneda` in `get_ec_banco` (`comsol.py`). -/
def altsMoneda2 : List (List Char) :=
  ["GUARANIES".toList, "GUARANÍES".toList, "DOLARES".toList, "DÓLARES".toList,
   "EUROS".toList, "EURO".toList, "REALES".toList, "REALE".toList,
   "PESOS".toList, "PESO".toList]

/-- Does the word-bounded alternative `alt` match case-insensitively at the
head of `hay` (with `prev` the previous character)? -/
def wbAltMatchAt (alt : List Char) (prev : Option Char) (hay : List Char) : Bool :=
  startsWithCI alt hay && wordBoundary prev alt.head?
    && wordBoundary alt.getLast? (hay.drop alt.length).head?

/-- Leftmost currency-word match: scan positions, trying the alternatives in
order; returns the matched span of the haystack (original case). -/
def monedaSearchAux (alts : List (List Char)) (prev : Option Char) :
    List Char → Option (List Char)
  | [] => none
  | c :: rest =>
    match alts.find? (fun alt => wbAltMatchAt alt prev (c :: rest)) with
    | some alt => some ((c :: rest).take alt.length)
    | none => monedaSearchAux alts (some c) rest

/-- `rx_moneda.search(linea)` with group 1, `prosegur_unificado_v4_2.py`
variant. -/
def monedaSearch (linea : String) : Option String :=
  (monedaSearchAux altsMoneda none linea.toList).map String.mk

/-- `rx_moneda.search(linea)` with group 1, `comsol.py` variant. -/
def monedaSearch2 (linea : String) : Option String :=
  (monedaSearchAux altsMoneda2 none linea.toList).map String.mk

/-- `re.fullmatch(r'\d{6,}', p)`. -/
def isRecibo6 (s : String) : Bool :=
  decide (s.toList.length ≥ 6) && s.toList.all Char.isDigit

/-- Splitter for Python `str.split()`: accumulate the current word
(reversed) and cut at whitespace, discarding empty pieces. -/
def wordsCLAux (cur : List Char) : List Char → List (List Char)
  | [] => if cur = [] then [] else [cur.reverse]
  | c :: rest =>
    if isWs c then
      if cur = [] then wordsCLAux [] rest
      else cur.reverse :: wordsCLAux [] rest
    else wordsCLAux (c :: cur) rest

/-- Python `str.split()` on character lists: split on whitespace runs,
discarding empty pieces. -/
def wordsCL (l : List Char) : List (List Char) :=
  wordsCLAux [] l

/-- Python `str.split()` on strings. -/
def pySplit (s : String) : List String :=
  (wordsCL s.toList).map String.mk

/-- First index `≥ i` (counting from `i` over the given list) whose element
satisfies the predicate; used for `next((i for i, p in enumerate(...)))`. -/
def findIdxFrom (f : String → Bool) (i : Nat) : List String → Option Nat
  | [] => none
  | p :: rest => if f p then some i else findIdxFrom f (i + 1) rest

/-!  EC_ATM ledger parser, `get_ec_atm` of `prosegur_unificado_v4_2.py`
(row-scanning state machine, lines 236-271).  The per-sheet mutable
variables become `EcAtmState`; one loop iteration becomes `ecAtmStep`,
returning the new state, the records appended by that row, and whether the
`INFORME DE PROCESOS` marker broke the loop. -/

structure EcAtmState where
  agencia : String
  fecha_archivo : String
  ing_egr : String
  motivo_actual : String
deriving Repr, DecidableEq

structure EcAtmReg where
  FECHA_OPER : String
  SUCURSAL : String
  RECIBO : String
  BULTOS : String
  GUARANIES : String
  DOLARES : String
  ING_EGR : String
  CLASIFICACION : String
  FECHA_ARCHIVO : String
  MOTIVO_MOVIMIENTO : String
  AGENCIA : String
deriving Repr, DecidableEq

/-- The detail-row field walk of `get_ec_atm` (wide guaraníes+dólares
layout): chained `_first_non_empty_after` lookups from the date cell. -/
def ecAtmDetail (fallback : String) (s : EcAtmState) (strip_cells : List String)
    (di : Nat) : EcAtmReg :=
  let fecha_oper := strip_cells.getD di ""
  let suc_idx := firstNonEmptyAfter strip_cells di
  let sucursal := getCell strip_cells suc_idx ""
  let rec_idx := match suc_idx with
    | some j => firstNonEmptyAfter strip_cells j
    | none => none
  let recibo_raw := getCell strip_cells rec_idx ""
  let recibo_digits := onlyDigits recibo_raw
  let recibo := if recibo_digits != "" then recibo_digits else recibo_raw
  let bul_idx := match rec_idx with
    | some j => firstNonEmptyAfter strip_cells j
    | none => none
  let bultos := getCell strip_cells bul_idx ""
  let gua_idx := match bul_idx with
    | some j => firstNonEmptyAfter strip_cells j
    | none => none
  let guaranies := let g := getCell strip_cells gua_idx "0"
                   if g = "" then "0" else g
  let usd_idx := match gua_idx with
    | some j => firstNonEmptyAfter strip_cells j
    | none => none
  let dolares := let d := getCell strip_cells usd_idx "0"
                 if d = "" then "0" else d
  { FECHA_OPER := fecha_oper, SUCURSAL := sucursal, RECIBO := recibo,
    BULTOS := bultos, GUARANIES := guaranies, DOLARES := dolares,
    ING_EGR := s.ing_egr, CLASIFICACION := "ATM",
    FECHA_ARCHIVO := s.fecha_archivo, MOTIVO_MOVIMIENTO := s.motivo_actual,
    AGENCIA := if s.agencia != "" then s.agencia else fallback }

/-- One loop iteration of `get_ec_atm` on one row of raw cells.
`fallback` is `agencia_fallback` (resolved from the file name/path). -/
def ecAtmStep (fallback : String) (s : EcAtmState) (cells : List String) :
    EcAtmState × List EcAtmReg × Bool :=
  let strip_cells := cells.map pyStrip
  let line_join := String.intercalate " " (strip_cells.filter (· ≠ ""))
  if line_join = "" then (s, [], false)
  else
    let upper_join := pyUpper (stripAccents line_join)
    if containsSub "PROSEGUR PARAGUAY S.A." upper_join
        && (sucursalSearch line_join).isSome then
      ({ s with agencia := pyStrip ((sucursalSearch line_join).getD "") }, [], false)
    else if containsSub "ESTADO DE CUENTA DE" upper_join
        && (alDateSearch line_join).isSome then
      ({ s with fecha_archivo := (alDateSearch line_join).getD "" }, [], false)
    else if upper_join = "INGRESOS" then
      ({ s with ing_egr := "IN", motivo_actual := "" }, [], false)
    else if upper_join = "EGRESOS" then
      ({ s with ing_egr := "OUT", motivo_actual := "" }, [], false)
    else if containsSub "INFORME DE PROCESOS" upper_join then (s, [], true)
    else if rxTotales line_join then (s, [], false)
    else
      match strip_cells.findIdx? isFechaCell with
      | none =>
        if s.ing_egr != "" then
          ({ s with motivo_actual := pyStrip line_join }, [], false)
        else (s, [], false)
      | some di =>
        if s.ing_egr != "" && s.motivo_actual != "" then
          (s, [ecAtmDetail fallback s strip_cells di], false)
        else (s, [], false)

/-- The whole row loop of `get_ec_atm`: fold `ecAtmStep` over the sheet's
rows, stopping at the terminal marker (`break`). -/
def ecAtmScan (fallback : String) : EcAtmState → List (List String) → List EcAtmReg
  | _, [] => []
  | s, row :: rest =>
    match ecAtmStep fallback s row with
    | (s', regs, stop) => if stop then regs else regs ++ ecAtmScan fallback s' rest

/-- Initial per-sheet parse state of `get_ec_atm`. -/
def ecAtmInit : EcAtmState :=
  { agencia := "", fecha_archivo := "", ing_egr := "", motivo_actual := "" }

/-!  Opening-balance extraction and the `comsol.py` ledger parsers. -/

/-- `_extraer_saldos_desde_fila` (`comsol.py`): find the first cell whose
folded text contains the folded label; return, in order, every later cell
that strips to a non-empty digit-bearing value. -/
def extraerSaldosAux (etiquetaNorm : String) : List String → List String
  | [] => []
  | celda :: rest =>
    if containsSub etiquetaNorm (pyUpper (stripAccents celda)) then
      (rest.map pyStrip).filter (fun v => v != "" && hasDigit v)
    else extraerSaldosAux etiquetaNorm rest

/-- `_extraer_saldos_desde_fila(strip_cells, etiqueta)`. -/
def extraerSaldosDesdeFila (cells : List String) (etiqueta : String) : List String :=
  extraerSaldosAux (pyUpper (stripAccents etiqueta)) cells

/-- `valuesAfterLabel` as the specification words it: accent/case-fold the
label and each cell, locate the first label-bearing cell, and keep every
subsequent non-empty cell containing at least one digit, in row order, up
to the end of the row; an unlabelled row gives the empty list. -/
def valuesAfterLabelSpec (row : List String) (label : String) : List String :=
  match row.findIdx? (fun c =>
      containsSub (pyUpper (stripAccents label)) (pyUpper (stripAccents c))) with
  | none => []
  | some i => ((row.drop (i + 1)).map pyStrip).filter (fun v => v != "" && hasDigit v)

/-- `_guess_currency_from_sheet_name` (`comsol.py`, default `GUARANIES`). -/
def guessCurrencyFromSheetName (sheet : String) : String :=
  let n := pyUpper (stripAccents sheet)
  if ["USD", "DOLAR", "DÓLAR", "DOLARES", "DÓLARES"].any (fun k => containsSub k n) then "DOLARES"
  else if ["EUR", "EURO", "EUROS"].any (fun k => containsSub k n) then "EUROS"
  else if ["BRL", "REAL", "REALES"].any (fun k => containsSub k n) then "REALES"
  else if ["ARS", "PESO", "PESOS", "ARG"].any (fun k => containsSub k n) then "PESOS"
  else if ["PYG", "GUARANI", "GUARANÍ"].any (fun k => containsSub k n) then "GUARANIES"
  else "GUARANIES"

/-- `_normaliza_moneda_iso` (`comsol.py`). -/
def normalizaMonedaIso (token : String) : String :=
  let t := pyStrip (pyUpper (stripAccents token))
  if ["PYG", "GS", "G$", "₲", "GUARANI", "GUARANIES", "GUARANÍ"].any (fun k => containsSub k t) then "PYG"
  else if ["USD", "US$", "U$S", "DOLAR", "DÓLAR", "DOLARES", "DÓLARES"].any (fun k => containsSub k t) then "USD"
  else if ["EUR", "€", "EURO", "EUROS"].any (fun k => containsSub k t) then "EUR"
  else if ["BRL", "R$", "REAL", "REALES"].any (fun k => containsSub k t) then "BRL"
  else if ["ARS", "PESO", "PESOS", "ARG"].any (fun k => containsSub k t) then "ARS"
  else if containsSub "$" t then "USD"
  else if t = "" then "PYG" else t

/-- Per-sheet parse state of `get_ec_atm` in `comsol.py` (adds the two
opening-balance fields). -/
structure ComsolEcAtmState where
  agencia : String
  fecha_archivo : String
  ing_egr : String
  motivo_actual : String
  saldo_ant_usd : String
  saldo_ant_pyg : String
deriving Repr, DecidableEq

structure ComsolEcAtmReg where
  FECHA_OPER : String
  SUCURSAL : String
  RECIBO : String
  BULTOS : String
  GUARANIES : String
  DOLARES : String
  ING_EGR : String
  CLASIFICACION : String
  FECHA_ARCHIVO : String
  MOTIVO_MOVIMIENTO : String
  AGENCIA : String
  SALDO_ANTERIOR_PYG : String
  SALDO_ANTERIOR_USD : String
deriving Repr, DecidableEq

/-- Detail-row field walk of `get_ec_atm` in `comsol.py`. -/
def comsolEcAtmDetail (s : ComsolEcAtmState) (strip_cells : List String)
    (di : Nat) : ComsolEcAtmReg :=
  let fecha_oper := strip_cells.getD di ""
  let suc_idx := firstNonEmptyAfter strip_cells di
  let sucursal := getCell strip_cells suc_idx ""
  let rec_idx := match suc_idx with
    | some j => firstNonEmptyAfter strip_cells j
    | none => none
  let recibo_raw := getCell strip_cells rec_idx ""
  let recibo := if onlyDigits recibo_raw != "" then onlyDigits recibo_raw else recibo_raw
  let bul_idx := match rec_idx with
    | some j => firstNonEmptyAfter strip_cells j
    | none => none
  let bultos := getCell strip_cells bul_idx ""
  let gua_idx := match bul_idx with
    | some j => firstNonEmptyAfter strip_cells j
    | none => none
  let guaranies := let g := getCell strip_cells gua_idx "0"
                   if g = "" then "0" else g
  let usd_idx := match gua_idx with
    | some j => firstNonEmptyAfter strip_cells j
    | none => none
  let dolares := let d := getCell strip_cells usd_idx "0"
                 if d = "" then "0" else d
  { FECHA_OPER := fecha_oper, SUCURSAL := sucursal, RECIBO := recibo,
    BULTOS := bultos, GUARANIES := guaranies, DOLARES := dolares,
    ING_EGR := s.ing_egr, CLASIFICACION := "ATM",
    FECHA_ARCHIVO := s.fecha_archivo, MOTIVO_MOVIMIENTO := s.motivo_actual,
    AGENCIA := s.agencia, SALDO_ANTERIOR_PYG := s.saldo_ant_pyg,
    SALDO_ANTERIOR_USD := s.saldo_ant_usd }

/-- One loop iteration of `get_ec_atm` in `comsol.py` (lines 435-524): like
the unified variant but with the guarded `Saldo Anterior` capture first,
and unconditional `continue` on the agency and header rows. -/
def comsolEcAtmStep (s : ComsolEcAtmState) (cells : List String) :
    ComsolEcAtmState × List ComsolEcAtmReg × Bool :=
  let strip_cells := cells.map pyStrip
  let line_join := String.intercalate " " (strip_cells.filter (· ≠ ""))
  if line_join = "" then (s, [], false)
  else
    let upper_join := pyUpper (stripAccents line_join)
    if containsSub "SALDO ANTERIOR" upper_join
        && !(s.saldo_ant_usd != "" || s.saldo_ant_pyg != "") then
      let saldos := extraerSaldosDesdeFila strip_cells "SALDO ANTERIOR"
      let usd := if saldos.length ≥ 1 then saldos.getD 0 "" else s.saldo_ant_usd
      let pyg := if saldos.length ≥ 2 then saldos.getD 1 "" else s.saldo_ant_pyg
      ({ s with saldo_ant_usd := usd, saldo_ant_pyg := pyg }, [], false)
    else if containsSub "PROSEGUR PARAGUAY S.A." upper_join then
      match sucursalSearch line_join with
      | some a => ({ s with agencia := pyStrip a }, [], false)
      | none => (s, [], false)
    else if containsSub "ESTADO DE CUENTA DE" upper_join then
      match alDateSearch line_join with
      | some d => ({ s with fecha_archivo := d }, [], false)
      | none => (s, [], false)
    else if upper_join = "INGRESOS" then
      ({ s with ing_egr := "IN", motivo_actual := "" }, [], false)
    else if upper_join = "EGRESOS" then
      ({ s with ing_egr := "OUT", motivo_actual := "" }, [], false)
    else if containsSub "INFORME DE PROCESOS" upper_join then (s, [], true)
    else if rxTotales line_join then (s, [], false)
    else
      match strip_cells.findIdx? isFechaCell with
      | none =>
        if s.ing_egr != "" then
          ({ s with motivo_actual := pyStrip line_join }, [], false)
        else (s, [], false)
      | some di =>
        if s.ing_egr != "" && s.motivo_actual != "" then
          (s, [comsolEcAtmDetail s strip_cells di], false)
        else (s, [], false)

/-- Per-sheet parse state of `get_ec_banco` in `comsol.py`. -/
structure ComsolEcBancoState where
  agencia : String
  fecha_archivo : String
  ing_egr : String
  motivo_actual : String
  moneda_actual : String
  saldo_anterior_hoja : String
deriving Repr, DecidableEq

structure ComsolEcBancoReg where
  HOJA_ORIGEN : String
  AGENCIA : String
  FECHA_ARCHIVO : String
  ING_EGR : String
  CLASIFICACION : String
  MOTIVO_MOVIMIENTO : String
  FECHA_OPER : String
  SUCURSAL : String
  RECIBO : String
  BULTOS : String
  MONEDA : String
  MONTO : String
  SALDO_ANTERIOR : String
deriving Repr, DecidableEq

/-- The header-row update of `get_ec_banco` in `comsol.py` (lines 610-617):
take the `AL[:\s]+` date if present, and re-guess the sticky currency from
a currency word if present. -/
def comsolEcBancoEstado (s : ComsolEcBancoState) (linea : String) : ComsolEcBancoState :=
  let s1 := match alDateSearch2 linea with
    | some d => { s with fecha_archivo := d }
    | none => s
  match monedaSearch2 linea with
  | some tok => { s1 with moneda_actual := guessCurrencyFromSheetName tok }
  | none => s1

/-- Count of decimal digits in the accent-folded text
(`sum(ch.isdigit() for ch in _strip_accents(p))`). -/
def digitCount (s : String) : Nat :=
  ((stripAccents s).toList.filter Char.isDigit).length

/-- The record built by a detail row of `get_ec_banco` in `comsol.py`
(lines 649-668), from the non-empty cell tokens `parts` and the
receipt-candidate index `ir`. -/
def comsolEcBancoDetail (hoja : String) (s : ComsolEcBancoState)
    (parts : List String) (linea : String) (ir : Nat) : ComsolEcBancoReg :=
  { HOJA_ORIGEN := hoja, AGENCIA := s.agencia,
    FECHA_ARCHIVO := s.fecha_archivo, ING_EGR := s.ing_egr,
    CLASIFICACION := "BCO", MOTIVO_MOVIMIENTO := s.motivo_actual,
    FECHA_OPER := (matchFechaLinea linea).getD "",
    SUCURSAL := pyStrip (String.intercalate " " ((parts.drop 1).take (ir - 1))),
    RECIBO := parts.getD ir "",
    BULTOS := if ir + 1 < parts.length then parts.getD (ir + 1) "" else "",
    MONTO := if ir + 2 < parts.length then parts.getD (ir + 2) "" else "",
    MONEDA := normalizaMonedaIso s.moneda_actual,
    SALDO_ANTERIOR := s.saldo_anterior_hoja }

/-- One loop iteration of `get_ec_banco` in `comsol.py` (lines 588-668):
guarded single `SALDO ANTERIOR` capture, unconditional `continue` on
agency/header rows, and a receipt candidate that needs at least four
digits.  (This variant has no motive-capture branch.) -/
def comsolEcBancoStep (hoja : String) (s : ComsolEcBancoState) (cells : List String) :
    ComsolEcBancoState × List ComsolEcBancoReg × Bool :=
  let strip_cells := cells.map pyStrip
  let linea := String.intercalate " " (strip_cells.filter (· ≠ ""))
  if linea = "" then (s, [], false)
  else
    let linea_up := pyUpper (stripAccents linea)
    if containsSub "SALDO ANTERIOR" linea_up && !(s.saldo_anterior_hoja != "") then
      match extraerSaldosDesdeFila strip_cells "SALDO ANTERIOR" with
      | [] => (s, [], false)
      | v :: _ => ({ s with saldo_anterior_hoja := v }, [], false)
    else if containsSub "PROSEGUR PARAGUAY S.A." linea_up then
      match sucursalSearch linea with
      | some a => ({ s with agencia := pyStrip a }, [], false)
      | none => (s, [], false)
    else if containsSub "ESTADO DE CUENTA DE" linea_up then
      (comsolEcBancoEstado s linea, [], false)
    else if linea_up = "INGRESOS" then
      ({ s with ing_egr := "IN", motivo_actual := "" }, [], false)
    else if linea_up = "EGRESOS" then
      ({ s with ing_egr := "OUT", motivo_actual := "" }, [], false)
    else if containsSub "INFORME DE PROCESOS" linea_up then (s, [], true)
    else if rxTotales linea then (s, [], false)
    else if s.ing_egr != "" && s.motivo_actual != ""
        && (matchFechaLinea linea).isSome then
      match strip_cells.filter (· ≠ "") with
      | [] => (s, [], false)
      | _ :: restParts =>
        match findIdxFrom (fun p => decide (digitCount p ≥ 4)) 1 restParts with
        | none => (s, [], false)
        | some ir =>
          (s, [comsolEcBancoDetail hoja s (strip_cells.filter (· ≠ "")) linea ir], false)
    else (s, [], false)

/-!  EC_BANCO ledger parser, `get_ec_banco` of `prosegur_unificado_v4_2.py`
(lines 285-326). -/

/-- `mapa_clasif` of `get_ec_banco`. -/
def mapaClasif : List (String × String) :=
  [("BANCO", "BCO"), ("ATM", "ATM"),
   ("BULTOS DE BANCO", "BULTO BCO"), ("BULTOS DE ATM", "BULTO ATM")]

structure EcBancoState where
  agencia : String
  fecha_archivo : String
  clasificacion : String
  ing_egr : String
  motivo_actual : String
  moneda_actual : String
deriving Repr, DecidableEq

structure EcBancoReg where
  HOJA_ORIGEN : String
  AGENCIA : String
  FECHA_ARCHIVO : String
  ING_EGR : String
  CLASIFICACION : String
  MOTIVO_MOVIMIENTO : String
  FECHA_OPER : String
  SUCURSAL : String
  RECIBO : String
  BULTOS : String
  MONEDA : String
  MONTO : String
deriving Repr, DecidableEq

/-- The sticky-currency update of `get_ec_banco` (lines 311-312): a
currency-word hit anywhere in the joined line overwrites `moneda_actual`
with the matched text. -/
def ecBancoMoneda (s : EcBancoState) (linea : String) : EcBancoState :=
  match monedaSearch linea with
  | some tok => { s with moneda_actual := tok }
  | none => s

/-- The record built by a detail row of `get_ec_banco` (lines 318-326),
from the whitespace-split tokens `parts` and receipt index `ir`. -/
def ecBancoDetail (hoja fallback : String) (s2 : EcBancoState) (parts : List String)
    (fecha_oper : String) (ir : Nat) : EcBancoReg :=
  { HOJA_ORIGEN := hoja,
    AGENCIA := if s2.agencia != "" then s2.agencia else fallback,
    FECHA_ARCHIVO := s2.fecha_archivo, ING_EGR := s2.ing_egr,
    CLASIFICACION := s2.clasificacion, MOTIVO_MOVIMIENTO := s2.motivo_actual,
    FECHA_OPER := fecha_oper,
    SUCURSAL := pyStrip (String.intercalate " " ((parts.drop 1).take (ir - 1))),
    RECIBO := parts.getD ir "",
    BULTOS := if ir + 1 < parts.length then parts.getD (ir + 1) "" else "",
    MONTO := if ir + 2 < parts.length then parts.getD (ir + 2) "" else "",
    MONEDA := s2.moneda_actual }

/-- Tail of the `get_ec_banco` loop iteration after the agency and header
branches (`prosegur_unificado_v4_2.py` lines 307-326): section markers,
terminal marker, totals skip, sticky currency update, motive capture, and
the receipt-gated detail emission over the whitespace-split line. -/
def ecBancoRest (hoja fallback : String) (s : EcBancoState) (linea linea_up : String) :
    EcBancoState × List EcBancoReg × Bool :=
  if linea_up = "INGRESOS" then
    ({ s with ing_egr := "IN", motivo_actual := "" }, [], false)
  else if linea_up = "EGRESOS" then
    ({ s with ing_egr := "OUT", motivo_actual := "" }, [], false)
  else if containsSub "INFORME DE PROCESOS" linea_up then (s, [], true)
  else if rxTotales linea then (s, [], false)
  else if (ecBancoMoneda s linea).ing_egr != "" && (matchFechaLinea linea).isNone then
    ({ ecBancoMoneda s linea with motivo_actual := pyStrip linea }, [], false)
  else if (ecBancoMoneda s linea).ing_egr != ""
      && (ecBancoMoneda s linea).motivo_actual != ""
      && (matchFechaLinea linea).isSome then
    match pySplit linea with
    | [] => (ecBancoMoneda s linea, [], false)
    | fecha_oper :: restParts =>
      match findIdxFrom isRecibo6 1 restParts with
      | none => (ecBancoMoneda s linea, [], false)
      | some ir =>
        (ecBancoMoneda s linea,
         [ecBancoDetail hoja fallback (ecBancoMoneda s linea)
            (fecha_oper :: restParts) fecha_oper ir], false)
  else (ecBancoMoneda s linea, [], false)

/-- The classification update of the `ESTADO DE CUENTA DE` header branch
(lines 301-304): the lazily captured statement type, folded, through
`mapa_clasif` (falling back to the captured text). -/
def ecBancoClasif (s : EcBancoState) (linea : String) : EcBancoState :=
  match estadoTipoSearch linea with
  | some texto =>
    { s with clasificacion :=
        (List.lookup (pyUpper (stripAccents (pyStrip texto))) mapaClasif).getD (pyStrip texto) }
  | none => s

/-- One loop iteration of `get_ec_banco` on one row of raw cells
(`prosegur_unificado_v4_2.py` lines 293-326).  In the header branch the
classification may be updated even when the `AL:` date is absent, in which
case the row falls through to the remaining checks. -/
def ecBancoStep (hoja fallback : String) (s : EcBancoState) (cells : List String) :
    EcBancoState × List EcBancoReg × Bool :=
  let linea := String.intercalate " " ((cells.map pyStrip).filter (· ≠ ""))
  if linea = "" then (s, [], false)
  else
    let linea_up := pyUpper (stripAccents linea)
    if containsSub "PROSEGUR PARAGUAY S.A." linea_up
        && (sucursalSearch linea).isSome then
      ({ s with agencia := pyStrip ((sucursalSearch linea).getD "") }, [], false)
    else if containsSub "ESTADO DE CUENTA DE" linea_up then
      match alDateSearch linea with
      | some d => ({ ecBancoClasif s linea with fecha_archivo := d }, [], false)
      | none => ecBancoRest hoja fallback (ecBancoClasif s linea) linea linea_up
    else ecBancoRest hoja fallback s linea linea_up

/-!  Inventory parser, `get_inv_atm` of `prosegur_unificado_v4_2.py`:
numeric-cell conversion with the date/clock-time rejection, and the
sticky-classifier row walk (lines 523-553). -/

/-- Value of a digit run (for `int()`). -/
def natOfDigits (l : List Char) : Nat :=
  l.foldl (fun n c => n * 10 + (c.toNat - 48)) 0

/-- Python `int()` applied to a string of digits and `-` signs (what is
left after `re.sub(r"[^\d\-]", "", s)`): an optional leading minus then
digits; anything else raises and yields `None`. -/
def pyIntOfDigits : List Char → Option Int
  | '-' :: rest =>
    if rest ≠ [] ∧ rest.all Char.isDigit then some (-(natOfDigits rest : Int)) else none
  | l => if l ≠ [] ∧ l.all Char.isDigit then some (natOfDigits l : Int) else none

/-- `_to_int` on a cell text: strip (the no-break space is whitespace),
`\d+\.\d+` is truncated to its integer part (exact for the magnitudes this
program meets), otherwise keep digits and `-` and parse with `int()`. -/
def pyToInt (x : String) : Option Int :=
  let s := pyStrip x
  if s = "" then none
  else
    let l := s.toList
    let intPart := l.takeWhile Char.isDigit
    if intPart ≠ [] ∧ l.drop intPart.length ≠ [] ∧
        (l.drop intPart.length).head? = some '.' ∧
        (l.drop (intPart.length + 1)) ≠ [] ∧
        (l.drop (intPart.length + 1)).all Char.isDigit then
      some (natOfDigits intPart : Int)
    else
      let digits := l.filter (fun c => c.isDigit || c = '-')
      if digits = [] ∨ digits = ['-'] ∨ digits = ['-', '-'] then none
      else pyIntOfDigits digits

/-- `_to_int_denom`: like `_to_int` but a cell containing `:` (clock time)
or `/` (date) is never read as a denomination. -/
def toIntDenom (x : String) : Option Int :=
  let s_raw := pyStrip x
  if s_raw.toList.contains ':' || s_raw.toList.contains '/' then none
  else pyToInt s_raw

/-- `_upper`: strip, collapse every whitespace run to one space, uppercase. -/
def squeezeSpaces : List Char → List Char
  | [] => []
  | [c] => [c]
  | a :: b :: rest =>
    if a = ' ' && b = ' ' then squeezeSpaces (b :: rest)
    else a :: squeezeSpaces (b :: rest)

/-- `_upper(x)` of `prosegur_unificado_v4_2.py`. -/
def upTxt (s : String) : String :=
  pyUpper (String.mk (squeezeSpaces ((pyStrip s).toList.map (fun c => if isWs c then ' ' else c))))

/-- `AGRUP_TOKENS` of `get_inv_atm`. -/
def agrupTokensAtm : List String := ["TESORO ATM", "FAJOS ATM", "PICOS ATM"]

/-- `TIPO_TOKENS` of `get_inv_atm`. -/
def tipoTokensAtm : List String := ["BILLETES (LADRILLOS)", "BILLETES"]

/-- `STOP_ROW_TOKENS` of `get_inv_atm`. -/
def stopRowTokens : List String :=
  ["SUB TOTAL", "SUBTOTAL", "TOTAL DEL DEPÓSITO", "TOTAL DEL DEPOSITO",
   "TOTAL DEPÓSITO", "TOTAL DEPOSITO"]

/-- Sticky classifiers carried down the inventory row walk. -/
structure InvState where
  cur_divisa : String
  cur_agrup : String
  cur_tipo : String
deriving Repr, DecidableEq

structure InvLine where
  FECHA_INVENTARIO : String
  DIVISA : String
  AGENCIA : String
  AGRUPACION_EFECTIVO : String
  TIPO_VALOR : String
  DENOMINACION : Int
  DEPOSITO : Int
  CJE_DEP : Int
  CANJE : Int
  MONEDA : Int
  IMPORTE_TOTAL : Int
deriving Repr, DecidableEq

/-- The `(column, value)` pairs of the cells `_to_int_denom` accepts,
left to right (`nums` in the row walk). -/
def numsFrom (j : Nat) : List String → List (Nat × Int)
  | [] => []
  | c :: rest =>
    match toIntDenom c with
    | some v => (j, v) :: numsFrom (j + 1) rest
    | none => numsFrom (j + 1) rest

/-- The `(column, value)` pairs of the cells `_to_int` accepts. -/
def numsFromInt (j : Nat) : List String → List (Nat × Int)
  | [] => []
  | c :: rest =>
    match pyToInt c with
    | some v => (j, v) :: numsFromInt (j + 1) rest
    | none => numsFromInt (j + 1) rest

/-- First cell strictly right of `idx` that `_to_int` can parse. -/
def nextIntAfter (row : List String) (idx : Nat) : Option (Nat × Int) :=
  (numsFromInt 0 row).find? (fun p => decide (p.1 > idx))

/-- The "five numbers to the right" walk of `get_inv_atm`: five times, find
the next `_to_int`-parsable cell right of the cursor (0 and cursor to the
row end when none). -/
def readFive (row : List String) : Nat → Nat → List Int
  | 0, _ => []
  | Nat.succ k, idx =>
    match nextIntAfter row idx with
    | some (j, v) => v :: readFive row k j
    | none => 0 :: readFive row k row.length

/-- The sticky-currency update of the row walk: a bare USD/PYG cell
overrides, otherwise the carried value stays. -/
def invDivisa (s : InvState) (row : List String) : String :=
  if ((row.filter (fun c => pyStrip c ≠ "")).map upTxt).contains "USD" then "USD"
  else if ((row.filter (fun c => pyStrip c ≠ "")).map upTxt).contains "PYG" then "PYG"
  else s.cur_divisa

/-- The joined folded text of the non-empty cells left of the denomination
column (`left_up`). -/
def invLeftUp (row : List String) (denom_col : Nat) : String :=
  String.intercalate " " (((row.take denom_col).filter (fun c => pyStrip c ≠ "")).map upTxt)

/-- Sticky value-type update from `left_up` (first matching token wins). -/
def invTipo (s : InvState) (row : List String) (denom_col : Nat) : String :=
  match tipoTokensAtm.find? (fun t => containsSub t (invLeftUp row denom_col)) with
  | some t => t
  | none => s.cur_tipo

/-- Sticky cash-grouping update from `left_up`. -/
def invAgrup (s : InvState) (row : List String) (denom_col : Nat) : String :=
  match agrupTokensAtm.find? (fun a => containsSub a (invLeftUp row denom_col)) with
  | some a => a
  | none => s.cur_agrup

/-- One emitted inventory line, from the sticky values, the denomination
and the five numbers read to its right. -/
def invAtmLine (fecha agencia d1 agrup tipo : String) (denom_val : Int)
    (vals : List Int) : InvLine :=
  { FECHA_INVENTARIO := fecha,
    DIVISA := if d1 != "" then d1 else "PYG",
    AGENCIA := agencia, AGRUPACION_EFECTIVO := agrup,
    TIPO_VALOR := tipo, DENOMINACION := denom_val,
    DEPOSITO := vals.getD 0 0, CJE_DEP := vals.getD 1 0,
    CANJE := vals.getD 2 0, MONEDA := vals.getD 3 0,
    IMPORTE_TOTAL := vals.getD 4 0 }

/-- One iteration of the `get_inv_atm` row walk (lines 523-553): skip
stop/total rows, update the sticky currency from a bare USD/PYG cell, take
the first `_to_int_denom`-accepted cell as the denomination, update the
sticky classifiers from the cells to its left, drop the row when no
classifier was ever established, otherwise emit one line with the five
numbers to the right. -/
def invAtmStep (fecha agencia : String) (s : InvState) (row : List String) :
    InvState × List InvLine :=
  if containsSub "TOTAL DE LA MONEDA" (String.intercalate " " (row.map upTxt))
      || stopRowTokens.any
          (fun tok => containsSub tok (String.intercalate " " (row.map upTxt))) then (s, [])
  else
    match numsFrom 0 row with
    | [] => ({ s with cur_divisa := invDivisa s row }, [])
    | (denom_col, denom_val) :: _ =>
      if !(invAgrup s row denom_col != "" || invTipo s row denom_col != "") then
        ({ cur_divisa := invDivisa s row, cur_agrup := invAgrup s row denom_col,
           cur_tipo := invTipo s row denom_col }, [])
      else
        ({ cur_divisa := invDivisa s row, cur_agrup := invAgrup s row denom_col,
           cur_tipo := invTipo s row denom_col },
         [invAtmLine fecha agencia (invDivisa s row) (invAgrup s row denom_col)
            (invTipo s row denom_col) denom_val (readFive row 5 denom_col)])

/-- The inventory row walk over the rows of the located block. -/
def invAtmWalk (fecha agencia : String) : InvState → List (List String) → List InvLine
  | _, [] => []
  | s, row :: rest =>
    match invAtmStep fecha agencia s row with
    | (s', ls) => ls ++ invAtmWalk fecha agencia s' rest

/-!  Agency normalizer (`AGENCIA_ALIASES`, `_agencia_code_from_text`,
`normalize_agencia_col` of `prosegur_unificado_v4_2.py`). -/

/-- `AGENCIA_ALIASES` (insertion order). -/
def agenciaAliases : List (String × List String) :=
  [("OVD", ["OVD", "OVIEDO"]),
   ("ENC", ["ENC", "ENCARNACION", "ENCARNACIÓN", "ENCA"]),
   ("CON", ["CON", "CONCEPCION", "CONCEPCIÓN"]),
   ("ASU", ["ASU", "ASUNCION", "ASUNCIÓN"]),
   ("CDE", ["CDE", "CIUDAD DEL ESTE", "C. DEL ESTE", "C DEL ESTE", "CDE."])]

/-- `_agencia_code_from_text`: fold the text, first try the five codes as
word-bounded patterns, then every alias (folded) the same way. -/
def agenciaCodeFromText (text : String) : Option String :=
  if text = "" then none
  else
    let t := pyUpper (stripAccents text)
    match (agenciaAliases.map Prod.fst).find? (fun code => containsWord code t) with
    | some code => some code
    | none =>
      agenciaAliases.findSome? (fun pr =>
        if pr.2.any (fun al => containsWord (pyUpper (stripAccents al)) t) then some pr.1
        else none)

/-- `normalize_agencia_col`: `None` becomes the empty string, a recognized
agency becomes its code, anything else is returned unchanged. -/
def normalizeAgenciaCol (val : Option String) : String :=
  match val with
  | none => ""
  | some v =>
    match agenciaCodeFromText v with
    | some code => code
    | none => v

/-!  Helper lemmas. -/

theorem ecAtmStep_eq (fb : String) (s : EcAtmState) (cells : List String) :
    ecAtmStep fb s cells =
      (if lineJoin cells = "" then (s, [], false)
       else if containsSub "PROSEGUR PARAGUAY S.A." (upperJoin cells)
           && (sucursalSearch (lineJoin cells)).isSome then
         ({ s with agencia := pyStrip ((sucursalSearch (lineJoin cells)).getD "") }, [], false)
       else if containsSub "ESTADO DE CUENTA DE" (upperJoin cells)
           && (alDateSearch (lineJoin cells)).isSome then
         ({ s with fecha_archivo := (alDateSearch (lineJoin cells)).getD "" }, [], false)
       else if upperJoin cells = "INGRESOS" then
         ({ s with ing_egr := "IN", motivo_actual := "" }, [], false)
       else if upperJoin cells = "EGRESOS" then
         ({ s with ing_egr := "OUT", motivo_actual := "" }, [], false)
       else if containsSub "INFORME DE PROCESOS" (upperJoin cells) then (s, [], true)
       else if rxTotales (lineJoin cells) then (s, [], false)
       else
         match (cells.map pyStrip).findIdx? isFechaCell with
         | none =>
           if s.ing_egr != "" then
             ({ s with motivo_actual := pyStrip (lineJoin cells) }, [], false)
           else (s, [], false)
         | some di =>
           if s.ing_egr != "" && s.motivo_actual != "" then
             (s, [ecAtmDetail fb s (cells.map pyStrip) di], false)
           else (s, [], false)) := rfl

theorem ecAtmStep_emit_gate (fb : String) (s : EcAtmState) (cells : List String)
    (h : (ecAtmStep fb s cells).2.1 ≠ []) :
    s.ing_egr ≠ "" ∧ s.motivo_actual ≠ "" := by
  rw [ecAtmStep_eq] at h
  repeat' split at h
  all_goals simp_all [bne_iff_ne]

theorem ecAtmStep_empty_motive (fb : String) (s : EcAtmState) (cells : List String)
    (hm : s.motivo_actual = "") : (ecAtmStep fb s cells).2.1 = [] := by
  rw [ecAtmStep_eq]
  repeat' split
  all_goals simp_all [bne_iff_ne]

theorem ecAtmStep_keeps_empty_section (fb : String) (s : EcAtmState) (cells : List String)
    (hs : s.ing_egr = "")
    (hing : containsSub "INGRESOS" (upperJoin cells) = false)
    (hegr : containsSub "EGRESOS" (upperJoin cells) = false) :
    (ecAtmStep fb s cells).2.1 = [] ∧ (ecAtmStep fb s cells).1.ing_egr = "" := by
  rw [ecAtmStep_eq]
  repeat' split
  all_goals simp_all [bne_iff_ne]
  · exact absurd hing (by decide)
  · exact absurd hegr (by decide)

theorem ecAtmScan_no_section (fb : String) (s : EcAtmState) (rows : List (List String))
    (hs : s.ing_egr = "")
    (h : ∀ row ∈ rows, containsSub "INGRESOS" (upperJoin row) = false ∧
                       containsSub "EGRESOS" (upperJoin row) = false) :
    ecAtmScan fb s rows = [] := by
  induction rows generalizing s with
  | nil => rfl
  | cons row rest ih =>
    obtain ⟨h1, h2⟩ := h row (List.mem_cons_self _ _)
    obtain ⟨hre, hie⟩ := ecAtmStep_keeps_empty_section fb s row hs h1 h2
    unfold ecAtmScan
    rcases hstep : ecAtmStep fb s row with ⟨s', regs, stop⟩
    rw [hstep] at hre hie
    dsimp at hre hie ⊢
    subst hre
    cases stop
    · simpa using ih s' hie (fun r hr => h r (List.mem_cons_of_mem _ hr))
    · simp

/-!  Claim theorems. -/

/-- C1: the ledger parser emits a record from a row only when the section
state is IN/OUT and the current motive is non-empty; hence a grid with no
row containing "INGRESOS"/"EGRESOS" yields zero records, and a date-bearing
detail row seen while the motive is empty produces no record. -/
theorem c1_motive_section_gate :
    (∀ fb s cells, (ecAtmStep fb s cells).2.1 ≠ [] →
        s.ing_egr ≠ "" ∧ s.motivo_actual ≠ "") ∧
    (∀ fb s cells, s.motivo_actual = "" → (ecAtmStep fb s cells).2.1 = []) ∧
    (∀ fb rows,
        (∀ row ∈ rows, containsSub "INGRESOS" (upperJoin row) = false ∧
                       containsSub "EGRESOS" (upperJoin row) = false) →
        ecAtmScan fb ecAtmInit rows = []) :=
  ⟨fun fb s cells h => ecAtmStep_emit_gate fb s cells h,
   fun fb s cells hm => ecAtmStep_empty_motive fb s cells hm,
   fun fb rows h => ecAtmScan_no_section fb ecAtmInit rows rfl h⟩

theorem c1_motive_section_gate_witness :
    (("IN" : String) ≠ "" ∧ ("DEPOSITO" : String) ≠ "") ∧
    (ecAtmStep "" ecAtmInit ["15/03/2024", "X", "123456", "1", "100", "0"]).2.1 = [] ∧
    ecAtmScan "" ecAtmInit [["hola"], ["15/03/2024", "X", "123456"]] = [] :=
  ⟨c1_motive_section_gate.1 "" ⟨"", "", "IN", "DEPOSITO"⟩
      ["15/03/2024", "X", "123456", "1", "100", "0"] (by decide),
   c1_motive_section_gate.2.1 "" ecAtmInit
      ["15/03/2024", "X", "123456", "1", "100", "0"] rfl,
   c1_motive_section_gate.2.2 "" [["hola"], ["15/03/2024", "X", "123456"]] (by decide)⟩

/-- C2 (counterexample): processing the stop-row `["TOTAL"]` does NOT clear
the motive — the parse state keeps the old motive `"DEPOSITO"`. -/
theorem c2_stop_row_cex :
    (ecAtmStep "" ⟨"", "", "IN", "DEPOSITO"⟩ ["TOTAL"]).1.motivo_actual = "DEPOSITO" ∧
    ("DEPOSITO" : String) ≠ "" := by
  constructor
  · rfl
  · decide

/-- C2 (amended): a row that reaches the stop-row check (its joined text
matches TOTAL/SUBTOTAL and it is not consumed by a higher-priority branch)
emits no record and leaves the whole parse state unchanged — including the
motive, which is NOT cleared. -/
theorem c2_stop_row_frame (fb : String) (s : EcAtmState) (cells : List String)
    (htot : rxTotales (lineJoin cells) = true)
    (hpro : containsSub "PROSEGUR PARAGUAY S.A." (upperJoin cells) = false)
    (hest : containsSub "ESTADO DE CUENTA DE" (upperJoin cells) = false)
    (hing : upperJoin cells ≠ "INGRESOS")
    (hegr : upperJoin cells ≠ "EGRESOS")
    (hinf : containsSub "INFORME DE PROCESOS" (upperJoin cells) = false) :
    ecAtmStep fb s cells = (s, [], false) := by
  rw [ecAtmStep_eq]
  repeat' split
  all_goals simp_all

theorem c2_stop_row_frame_witness :
    ecAtmStep "" ⟨"AG", "31/10/2025", "IN", "DEPOSITO"⟩ ["", "TOTAL", "1.000"] =
      (⟨"AG", "31/10/2025", "IN", "DEPOSITO"⟩, [], false) :=
  c2_stop_row_frame "" ⟨"AG", "31/10/2025", "IN", "DEPOSITO"⟩ ["", "TOTAL", "1.000"]
    (by decide) (by decide) (by decide) (by decide) (by decide) (by decide)

/-- C3 (counterexample): on the claimed wide-ledger row the emitted record's
RECIBO is `"000123456"` — `_only_digits` preserves leading zeros — not the
claimed `"123456"`. -/
theorem c3_wide_ledger_cex :
    ((ecAtmStep "" ⟨"", "", "IN", "DEPOSITO"⟩
        ["", "15/03/2024", "Ciudad del Este", "000123456", "3", "1.500.000", "0"]).2.1.map
      EcAtmReg.RECIBO) = ["000123456"] ∧ ("000123456" : String) ≠ "123456" := by
  constructor
  · rfl
  · decide

/-- C3 (amended): parsing the row
`["", "15/03/2024", "Ciudad del Este", "000123456", "3", "1.500.000", "0"]`
in section IN with motive "DEPOSITO" yields exactly one record with
FECHA=15/03/2024, SUCURSAL=Ciudad del Este, RECIBO=000123456 (digits kept
verbatim, leading zeros included), BULTOS=3, GUARANIES=1.500.000,
DOLARES=0, ING_EGR=IN and MOTIVO_MOVIMIENTO=DEPOSITO. -/
theorem c3_wide_ledger_row :
    (ecAtmStep "" ⟨"", "", "IN", "DEPOSITO"⟩
        ["", "15/03/2024", "Ciudad del Este", "000123456", "3", "1.500.000", "0"]).2.1 =
      [{ FECHA_OPER := "15/03/2024", SUCURSAL := "Ciudad del Este",
         RECIBO := "000123456", BULTOS := "3", GUARANIES := "1.500.000",
         DOLARES := "0", ING_EGR := "IN", CLASIFICACION := "ATM",
         FECHA_ARCHIVO := "", MOTIVO_MOVIMIENTO := "DEPOSITO", AGENCIA := "" }] := rfl

/-- C9 (counterexample): a row that contains the terminal marker AND the
agency pattern is consumed as an agency row, so the scan keeps going: the
rows after it still produce a record (the claim would force zero). -/
theorem c9_terminal_marker_cex :
    (ecAtmScan "" ecAtmInit
      [["PROSEGUR PARAGUAY S.A. (SUCURSAL: ASU) INFORME DE PROCESOS"],
       ["INGRESOS"], ["DEPOSITO"],
       ["15/03/2024", "X", "123456", "1", "100", "0"]]).length = 1 ∧
    (1 : Nat) ≠ 0 := by
  constructor
  · rfl
  · decide

/-- C9 (amended): once a row containing "INFORME DE PROCESOS" that is not
consumed by the higher-priority agency or statement-header branch is seen,
scanning stops: no later row changes any state or contributes any record,
whatever the remaining rows are. -/
theorem c9_terminal_marker (fb : String) (s : EcAtmState) (cells : List String)
    (rest : List (List String))
    (hinf : containsSub "INFORME DE PROCESOS" (upperJoin cells) = true)
    (hpro : containsSub "PROSEGUR PARAGUAY S.A." (upperJoin cells) = false)
    (hest : containsSub "ESTADO DE CUENTA DE" (upperJoin cells) = false) :
    ecAtmScan fb s (cells :: rest) = [] := by
  have hstep : ecAtmStep fb s cells = (s, [], true) := by
    rw [ecAtmStep_eq]
    repeat' split
    all_goals simp_all
    · rename_i hempty
      have hu : upperJoin cells = "" := by
        unfold upperJoin
        rw [hempty]
        rfl
      rw [hu] at hinf
      exact absurd hinf (by decide)
    · exact absurd hinf (by decide)
    · exact absurd hinf (by decide)
  unfold ecAtmScan
  rw [hstep]
  rfl

theorem c9_terminal_marker_witness :
    ecAtmScan "" ⟨"", "", "IN", "DEPOSITO"⟩
      [["INFORME DE PROCESOS"], ["TOTAL"], ["SALDO ANTERIOR", "5"],
       ["15/03/2024", "X", "123456", "1", "100", "0"]] = [] :=
  c9_terminal_marker "" ⟨"", "", "IN", "DEPOSITO"⟩ ["INFORME DE PROCESOS"]
    [["TOTAL"], ["SALDO ANTERIOR", "5"], ["15/03/2024", "X", "123456", "1", "100", "0"]]
    (by decide) (by decide) (by decide)

theorem comsolEcAtm_saldo_preserved (s : ComsolEcAtmState) (cells : List String)
    (h : s.saldo_ant_usd ≠ "" ∨ s.saldo_ant_pyg ≠ "") :
    (comsolEcAtmStep s cells).1.saldo_ant_usd = s.saldo_ant_usd ∧
    (comsolEcAtmStep s cells).1.saldo_ant_pyg = s.saldo_ant_pyg := by
  unfold comsolEcAtmStep
  dsimp only
  repeat' split
  all_goals simp_all [bne_iff_ne]

theorem comsolEcBancoEstado_saldo (s : ComsolEcBancoState) (linea : String) :
    (comsolEcBancoEstado s linea).saldo_anterior_hoja = s.saldo_anterior_hoja := by
  unfold comsolEcBancoEstado
  rcases h1 : alDateSearch2 linea with _ | d <;>
    rcases h2 : monedaSearch2 linea with _ | tok <;>
      simp [h1, h2]

theorem comsolEcBancoStep_eq (hoja : String) (s : ComsolEcBancoState) (cells : List String) :
    comsolEcBancoStep hoja s cells =
      (if lineJoin cells = "" then (s, [], false)
       else if containsSub "SALDO ANTERIOR" (upperJoin cells)
           && !(s.saldo_anterior_hoja != "") then
         match extraerSaldosDesdeFila (cells.map pyStrip) "SALDO ANTERIOR" with
         | [] => (s, [], false)
         | v :: _ => ({ s with saldo_anterior_hoja := v }, [], false)
       else if containsSub "PROSEGUR PARAGUAY S.A." (upperJoin cells) then
         match sucursalSearch (lineJoin cells) with
         | some a => ({ s with agencia := pyStrip a }, [], false)
         | none => (s, [], false)
       else if containsSub "ESTADO DE CUENTA DE" (upperJoin cells) then
         (comsolEcBancoEstado s (lineJoin cells), [], false)
       else if upperJoin cells = "INGRESOS" then
         ({ s with ing_egr := "IN", motivo_actual := "" }, [], false)
       else if upperJoin cells = "EGRESOS" then
         ({ s with ing_egr := "OUT", motivo_actual := "" }, [], false)
       else if containsSub "INFORME DE PROCESOS" (upperJoin cells) then (s, [], true)
       else if rxTotales (lineJoin cells) then (s, [], false)
       else if s.ing_egr != "" && s.motivo_actual != ""
           && (matchFechaLinea (lineJoin cells)).isSome then
         match ((cells.map pyStrip).filter (· ≠ "")) with
         | [] => (s, [], false)
         | _ :: restParts =>
           match findIdxFrom (fun p => decide (digitCount p ≥ 4)) 1 restParts with
           | none => (s, [], false)
           | some ir =>
             (s, [comsolEcBancoDetail hoja s ((cells.map pyStrip).filter (· ≠ ""))
                    (lineJoin cells) ir], false)
       else (s, [], false)) := rfl

theorem comsolEcBanco_saldo_preserved (hoja : String) (s : ComsolEcBancoState)
    (cells : List String) (h : s.saldo_anterior_hoja ≠ "") :
    (comsolEcBancoStep hoja s cells).1.saldo_anterior_hoja = s.saldo_anterior_hoja := by
  rw [comsolEcBancoStep_eq]
  repeat' split
  all_goals simp_all [bne_iff_ne, comsolEcBancoEstado_saldo]

/-- C4: opening-balance capture happens at most once per sheet.  Once any
opening-balance value is non-empty, no row — label-bearing or not — ever
changes the captured values again, in either `comsol.py` ledger parser. -/
theorem c4_saldo_captured_once :
    (∀ s cells, s.saldo_ant_usd ≠ "" ∨ s.saldo_ant_pyg ≠ "" →
      (comsolEcAtmStep s cells).1.saldo_ant_usd = s.saldo_ant_usd ∧
      (comsolEcAtmStep s cells).1.saldo_ant_pyg = s.saldo_ant_pyg) ∧
    (∀ hoja s cells, s.saldo_anterior_hoja ≠ "" →
      (comsolEcBancoStep hoja s cells).1.saldo_anterior_hoja = s.saldo_anterior_hoja) :=
  ⟨fun s cells h => comsolEcAtm_saldo_preserved s cells h,
   fun hoja s cells h => comsolEcBanco_saldo_preserved hoja s cells h⟩

theorem c4_saldo_captured_once_witness :
    ((comsolEcAtmStep ⟨"", "", "", "", "1.200,50", "3.400.000"⟩
        ["SALDO ANTERIOR", "9", "8"]).1.saldo_ant_usd = "1.200,50" ∧
     (comsolEcAtmStep ⟨"", "", "", "", "1.200,50", "3.400.000"⟩
        ["SALDO ANTERIOR", "9", "8"]).1.saldo_ant_pyg = "3.400.000") ∧
    (comsolEcBancoStep "H" ⟨"", "", "", "", "GUARANIES", "77"⟩
        ["SALDO ANTERIOR", "9"]).1.saldo_anterior_hoja = "77" :=
  ⟨c4_saldo_captured_once.1 ⟨"", "", "", "", "1.200,50", "3.400.000"⟩
      ["SALDO ANTERIOR", "9", "8"] (Or.inl (by decide)),
   c4_saldo_captured_once.2 "H" ⟨"", "", "", "", "GUARANIES", "77"⟩
      ["SALDO ANTERIOR", "9"] (by decide)⟩

theorem extraerSaldosAux_eq_spec (lab : String) (row : List String) :
    extraerSaldosAux lab row =
      (match row.findIdx? (fun c => containsSub lab (pyUpper (stripAccents c))) with
       | none => []
       | some i => ((row.drop (i + 1)).map pyStrip).filter
           (fun v => v != "" && hasDigit v)) := by
  induction row with
  | nil => rfl
  | cons c rest ih =>
    rw [extraerSaldosAux, List.findIdx?_cons]
    by_cases h : containsSub lab (pyUpper (stripAccents c)) = true
    · simp [h]
    · have h' : containsSub lab (pyUpper (stripAccents c)) = false := by
        cases hx : containsSub lab (pyUpper (stripAccents c)) <;> simp_all
      rw [if_neg (by simp [h']), ih, if_neg (by simp [h']), List.findIdx?_start_succ]
      cases hfi : rest.findIdx? (fun c => containsSub lab (pyUpper (stripAccents c))) with
      | none => simp
      | some j => simp

theorem extraerSaldosAux_no_label (lab : String) (row : List String)
    (h : ∀ c ∈ row, containsSub lab (pyUpper (stripAccents c)) = false) :
    extraerSaldosAux lab row = [] := by
  induction row with
  | nil => rfl
  | cons c rest ih =>
    rw [extraerSaldosAux, if_neg (by simp [h c (List.mem_cons_self _ _)])]
    exact ih fun x hx => h x (List.mem_cons_of_mem _ hx)

/-- C5: the opening-balance extractor agrees everywhere with the
specification's algorithm (first folded-label-bearing cell, then every
later non-empty digit-bearing cell in row order, to the end of the row);
a row with no label cell gives the empty list; and the scenario row
`["SALDO ANTERIOR", "", "1.200,50", "", "3.400.000"]` gives
`["1.200,50", "3.400.000"]`. -/
theorem c5_values_after_label :
    (∀ row label, extraerSaldosDesdeFila row label = valuesAfterLabelSpec row label) ∧
    (∀ row, (∀ c ∈ row, containsSub "SALDO ANTERIOR" (pyUpper (stripAccents c)) = false) →
      extraerSaldosDesdeFila row "SALDO ANTERIOR" = []) ∧
    extraerSaldosDesdeFila ["SALDO ANTERIOR", "", "1.200,50", "", "3.400.000"]
      "SALDO ANTERIOR" = ["1.200,50", "3.400.000"] :=
  ⟨fun row label => extraerSaldosAux_eq_spec (pyUpper (stripAccents label)) row,
   fun row h => extraerSaldosAux_no_label (pyUpper (stripAccents "SALDO ANTERIOR")) row
     (fun c hc => by
       rw [show pyUpper (stripAccents "SALDO ANTERIOR") = "SALDO ANTERIOR" from rfl]
       exact h c hc),
   rfl⟩

theorem c5_values_after_label_witness :
    valuesAfterLabelSpec ["SALDO ANTERIOR", "", "1.200,50", "", "3.400.000"]
      "SALDO ANTERIOR" = ["1.200,50", "3.400.000"] ∧
    extraerSaldosDesdeFila ["sin etiqueta", "123"] "SALDO ANTERIOR" = [] :=
  ⟨(c5_values_after_label.1 ["SALDO ANTERIOR", "", "1.200,50", "", "3.400.000"]
      "SALDO ANTERIOR").symm.trans c5_values_after_label.2.2,
   c5_values_after_label.2.1 ["sin etiqueta", "123"] (by decide)⟩

theorem ecBancoMoneda_fields (s : EcBancoState) (linea : String) :
    (ecBancoMoneda s linea).agencia = s.agencia ∧
    (ecBancoMoneda s linea).fecha_archivo = s.fecha_archivo ∧
    (ecBancoMoneda s linea).clasificacion = s.clasificacion ∧
    (ecBancoMoneda s linea).ing_egr = s.ing_egr ∧
    (ecBancoMoneda s linea).motivo_actual = s.motivo_actual := by
  unfold ecBancoMoneda
  rcases h : monedaSearch linea with _ | tok <;> simp [h]

theorem findIdxFrom_eq_none (f : String → Bool) (l : List String)
    (h : ∀ p ∈ l, f p = false) : ∀ i, findIdxFrom f i l = none := by
  induction l with
  | nil => intro i; rfl
  | cons p rest ih =>
    intro i
    rw [findIdxFrom, h p (List.mem_cons_self _ _)]
    simpa using ih (fun x hx => h x (List.mem_cons_of_mem _ hx)) (i + 1)

theorem ecBancoRest_receipt_drop (hoja fb : String) (s : EcBancoState)
    (linea lu : String)
    (hing : lu ≠ "INGRESOS") (hegr : lu ≠ "EGRESOS")
    (hinf : containsSub "INFORME DE PROCESOS" lu = false)
    (hdate : (matchFechaLinea linea).isSome = true)
    (hrec : ∀ p ∈ (pySplit linea).drop 1, isRecibo6 p = false) :
    (ecBancoRest hoja fb s linea lu).2.1 = [] ∧
    (ecBancoRest hoja fb s linea lu).2.2 = false ∧
    (ecBancoRest hoja fb s linea lu).1.agencia = s.agencia ∧
    (ecBancoRest hoja fb s linea lu).1.fecha_archivo = s.fecha_archivo ∧
    (ecBancoRest hoja fb s linea lu).1.clasificacion = s.clasificacion ∧
    (ecBancoRest hoja fb s linea lu).1.ing_egr = s.ing_egr ∧
    (ecBancoRest hoja fb s linea lu).1.motivo_actual = s.motivo_actual := by
  have hm := ecBancoMoneda_fields s linea
  unfold ecBancoRest
  repeat' split
  all_goals simp_all
  rename_i hsplit hfind
  rw [findIdxFrom_eq_none isRecibo6 _ hrec 1] at hfind
  cases hfind

theorem ecBancoStep_eq (hoja fb : String) (s : EcBancoState) (cells : List String) :
    ecBancoStep hoja fb s cells =
      (if lineJoin cells = "" then (s, [], false)
       else if containsSub "PROSEGUR PARAGUAY S.A." (upperJoin cells)
           && (sucursalSearch (lineJoin cells)).isSome then
         ({ s with agencia := pyStrip ((sucursalSearch (lineJoin cells)).getD "") }, [], false)
       else if containsSub "ESTADO DE CUENTA DE" (upperJoin cells) then
         match alDateSearch (lineJoin cells) with
         | some d => ({ ecBancoClasif s (lineJoin cells) with fecha_archivo := d }, [], false)
         | none => ecBancoRest hoja fb (ecBancoClasif s (lineJoin cells))
             (lineJoin cells) (upperJoin cells)
       else ecBancoRest hoja fb s (lineJoin cells) (upperJoin cells)) := rfl

/-- C8 (amended): in the bank-statement ledger format, a date-bearing
detail row with no whitespace token after the date shaped like a receipt
(six or more digits) is dropped: no record — full or partial — is emitted,
and every parse-state field is unchanged EXCEPT the sticky currency, which
a currency word in the same row may still update before the drop. -/
theorem c8_bank_receipt_gate (hoja fb : String) (s : EcBancoState) (cells : List String)
    (hpro : containsSub "PROSEGUR PARAGUAY S.A." (upperJoin cells) = false)
    (hest : containsSub "ESTADO DE CUENTA DE" (upperJoin cells) = false)
    (hing : upperJoin cells ≠ "INGRESOS")
    (hegr : upperJoin cells ≠ "EGRESOS")
    (hinf : containsSub "INFORME DE PROCESOS" (upperJoin cells) = false)
    (hdate : (matchFechaLinea (lineJoin cells)).isSome = true)
    (hrec : ∀ p ∈ (pySplit (lineJoin cells)).drop 1, isRecibo6 p = false) :
    (ecBancoStep hoja fb s cells).2.1 = [] ∧
    (ecBancoStep hoja fb s cells).2.2 = false ∧
    (ecBancoStep hoja fb s cells).1.agencia = s.agencia ∧
    (ecBancoStep hoja fb s cells).1.fecha_archivo = s.fecha_archivo ∧
    (ecBancoStep hoja fb s cells).1.clasificacion = s.clasificacion ∧
    (ecBancoStep hoja fb s cells).1.ing_egr = s.ing_egr ∧
    (ecBancoStep hoja fb s cells).1.motivo_actual = s.motivo_actual := by
  rw [ecBancoStep_eq]
  have hdrop := ecBancoRest_receipt_drop hoja fb s (lineJoin cells) (upperJoin cells)
    hing hegr hinf hdate hrec
  repeat' split
  all_goals simp_all

/-- C8 (counterexample): the detail row
`["15/03/2024", "PAGO USD CLIENTE"]` (date-bearing, no 6-digit token) is
dropped with no record, but the parse state is NOT unchanged: the sticky
currency flips from "GUARANIES" to "USD" on that very row. -/
theorem c8_bank_receipt_cex :
    (ecBancoStep "H" "" ⟨"", "", "", "IN", "DEPOSITO", "GUARANIES"⟩
        ["15/03/2024", "PAGO USD CLIENTE"]).2.1 = [] ∧
    (ecBancoStep "H" "" ⟨"", "", "", "IN", "DEPOSITO", "GUARANIES"⟩
        ["15/03/2024", "PAGO USD CLIENTE"]).1.moneda_actual = "USD" ∧
    ("USD" : String) ≠ "GUARANIES" := by
  refine ⟨rfl, rfl, by decide⟩

theorem c8_bank_receipt_gate_witness :
    (ecBancoStep "H" "" ⟨"AG", "31/10/2025", "BCO", "IN", "DEPOSITO", "GUARANIES"⟩
        ["15/03/2024", "PAGO CLIENTE", "12345"]).2.1 = [] ∧
    (ecBancoStep "H" "" ⟨"AG", "31/10/2025", "BCO", "IN", "DEPOSITO", "GUARANIES"⟩
        ["15/03/2024", "PAGO CLIENTE", "12345"]).2.2 = false ∧
    (ecBancoStep "H" "" ⟨"AG", "31/10/2025", "BCO", "IN", "DEPOSITO", "GUARANIES"⟩
        ["15/03/2024", "PAGO CLIENTE", "12345"]).1.agencia = "AG" ∧
    (ecBancoStep "H" "" ⟨"AG", "31/10/2025", "BCO", "IN", "DEPOSITO", "GUARANIES"⟩
        ["15/03/2024", "PAGO CLIENTE", "12345"]).1.fecha_archivo = "31/10/2025" ∧
    (ecBancoStep "H" "" ⟨"AG", "31/10/2025", "BCO", "IN", "DEPOSITO", "GUARANIES"⟩
        ["15/03/2024", "PAGO CLIENTE", "12345"]).1.clasificacion = "BCO" ∧
    (ecBancoStep "H" "" ⟨"AG", "31/10/2025", "BCO", "IN", "DEPOSITO", "GUARANIES"⟩
        ["15/03/2024", "PAGO CLIENTE", "12345"]).1.ing_egr = "IN" ∧
    (ecBancoStep "H" "" ⟨"AG", "31/10/2025", "BCO", "IN", "DEPOSITO", "GUARANIES"⟩
        ["15/03/2024", "PAGO CLIENTE", "12345"]).1.motivo_actual = "DEPOSITO" :=
  c8_bank_receipt_gate "H" "" ⟨"AG", "31/10/2025", "BCO", "IN", "DEPOSITO", "GUARANIES"⟩
    ["15/03/2024", "PAGO CLIENTE", "12345"]
    (by decide) (by decide) (by decide) (by decide) (by decide) (by decide) (by decide)

theorem mem_dropWhile_isWs {c : Char} (hc : isWs c = false) :
    ∀ {l : List Char}, c ∈ l → c ∈ l.dropWhile isWs := by
  intro l
  induction l with
  | nil => intro h; cases h
  | cons a rest ih =>
    intro h
    rw [List.dropWhile_cons]
    by_cases ha : isWs a = true
    · rcases List.mem_cons.mp h with h | h
      · subst h; rw [hc] at ha; cases ha
      · simpa [ha] using ih h
    · simpa [ha] using h

theorem mem_pyStripList {c : Char} {l : List Char} (hc : isWs c = false)
    (h : c ∈ l) : c ∈ pyStripList l := by
  unfold pyStripList
  rw [List.mem_reverse]
  exact mem_dropWhile_isWs hc (by rw [List.mem_reverse]; exact mem_dropWhile_isWs hc h)

theorem toIntDenom_rejects (x : String)
    (h : ':' ∈ x.toList ∨ '/' ∈ x.toList) : toIntDenom x = none := by
  have hcond : ((pyStrip x).toList.contains ':' || (pyStrip x).toList.contains '/') = true := by
    rcases h with h | h
    · have hm := mem_pyStripList (l := x.toList) (c := ':') (by decide) h
      simp only [Bool.or_eq_true]
      exact Or.inl (List.elem_iff.mpr hm)
    · have hm := mem_pyStripList (l := x.toList) (c := '/') (by decide) h
      simp only [Bool.or_eq_true]
      exact Or.inr (List.elem_iff.mpr hm)
  unfold toIntDenom
  dsimp only
  rw [hcond]
  rfl

theorem toIntDenom_some_clean {x : String} {v : Int}
    (h : toIntDenom x = some v) : ':' ∉ x.toList ∧ '/' ∉ x.toList := by
  constructor
  · intro hc
    rw [toIntDenom_rejects x (Or.inl hc)] at h
    cases h
  · intro hc
    rw [toIntDenom_rejects x (Or.inr hc)] at h
    cases h

theorem numsFrom_mem {p : Nat × Int} :
    ∀ {j : Nat} {row : List String}, p ∈ numsFrom j row →
      ∃ c ∈ row, toIntDenom c = some p.2 := by
  intro j row
  induction row generalizing j with
  | nil => intro h; cases h
  | cons c rest ih =>
    intro h
    rw [numsFrom] at h
    cases hc : toIntDenom c with
    | some v =>
      rw [hc] at h
      rcases List.mem_cons.mp h with h | h
      · exact ⟨c, List.mem_cons_self _ _, by rw [hc, h]⟩
      · obtain ⟨c', hm, hv⟩ := ih h
        exact ⟨c', List.mem_cons_of_mem _ hm, hv⟩
    | none =>
      rw [hc] at h
      obtain ⟨c', hm, hv⟩ := ih h
      exact ⟨c', List.mem_cons_of_mem _ hm, hv⟩

theorem invAtmStep_denom_src (fecha ag : String) (s : InvState) (row : List String)
    (line : InvLine) (h : line ∈ (invAtmStep fecha ag s row).2) :
    ∃ c ∈ row, toIntDenom c = some line.DENOMINACION := by
  unfold invAtmStep at h
  repeat' split at h
  · cases h
  · cases h
  · cases h
  · rename_i hnums _
    rcases List.mem_singleton.mp h with rfl
    have hmem : (_, _) ∈ numsFrom 0 row := hnums ▸ List.mem_cons_self _ _
    obtain ⟨c, hm, hv⟩ := numsFrom_mem hmem
    exact ⟨c, hm, hv⟩

theorem invAtmStep_gate (fecha ag : String) (s : InvState) (row : List String)
    (h : (invAtmStep fecha ag s row).2 ≠ []) :
    (invAtmStep fecha ag s row).1.cur_agrup ≠ "" ∨
    (invAtmStep fecha ag s row).1.cur_tipo ≠ "" := by
  rcases hstep : invAtmStep fecha ag s row with ⟨s2, ls⟩
  rw [hstep] at h
  dsimp only at h ⊢
  unfold invAtmStep at hstep
  repeat' split at hstep
  all_goals
    first
      | (injection hstep with h1 h2
         subst h2
         exact absurd rfl h)
      | (injection hstep with h1 h2
         subst h1
         simp_all [bne_iff_ne]
         try tauto)

/-- C6: a cell containing `:` or `/` is never accepted by the denomination
converter, and every inventory line the row walk emits draws its
DENOMINATION from a cell free of `:` and `/` — clock-time and date tokens
can never become a denomination. -/
theorem c6_no_time_date_denomination :
    (∀ x : String, (':' ∈ x.toList ∨ '/' ∈ x.toList) → toIntDenom x = none) ∧
    (∀ fecha ag s row line, line ∈ (invAtmStep fecha ag s row).2 →
      ∃ c ∈ row, toIntDenom c = some line.DENOMINACION ∧
        ':' ∉ c.toList ∧ '/' ∉ c.toList) :=
  ⟨fun x h => toIntDenom_rejects x h,
   fun fecha ag s row line h => by
     obtain ⟨c, hm, hv⟩ := invAtmStep_denom_src fecha ag s row line h
     obtain ⟨h1, h2⟩ := toIntDenom_some_clean hv
     exact ⟨c, hm, hv, h1, h2⟩⟩

theorem c6_no_time_date_denomination_witness :
    toIntDenom "6:28" = none ∧ toIntDenom "23/10/2025" = none ∧
    (∃ c ∈ ["TESORO ATM", "50000", "12", "0", "0", "0", "600000"],
      toIntDenom c = some
        ((invAtmLine "F" "A" "" "TESORO ATM" "" 50000 [12, 0, 0, 0, 600000]).DENOMINACION) ∧
      ':' ∉ c.toList ∧ '/' ∉ c.toList) :=
  ⟨c6_no_time_date_denomination.1 "6:28" (Or.inl (by decide)),
   c6_no_time_date_denomination.1 "23/10/2025" (Or.inr (by decide)),
   c6_no_time_date_denomination.2 "F" "A" ⟨"", "", ""⟩
     ["TESORO ATM", "50000", "12", "0", "0", "0", "600000"]
     (invAtmLine "F" "A" "" "TESORO ATM" "" 50000 [12, 0, 0, 0, 600000])
     (by decide)⟩

/-- C7 (counterexample): the claimed three-row sequence — a grouping-only
row, a type-only row, then the bare numeric row — yields ZERO inventory
lines, not one: classifier rows without a numeric cell establish nothing
(`if not nums: continue` runs before the classifier scan). -/
theorem c7_inventory_context_cex :
    invAtmWalk "F" "A" ⟨"", "", ""⟩
      [["TESORO ATM"], ["BILLETES"], ["50000", "12", "0", "0", "0", "600000"]] = [] ∧
    ([] : List InvLine).length ≠ 1 := by
  refine ⟨rfl, by decide⟩

/-- C7 (amended): a line is emitted only when at least one classifier is
non-empty after the row's own left-of-denomination update — i.e. it was
established by keyword cells left of a denomination on this or an earlier
NUMERIC row.  Classifier-only rows with no numeric cell establish nothing,
so the claimed three-row sequence yields zero lines; the row
`["TESORO ATM", "50000", "12", "0", "0", "0", "600000"]` (grouping keyword
left of the denomination) yields the claimed line with DENOMINATION=50000,
DEPOSITO=12 and total 600000; and the bare numeric row with no context
yields zero lines. -/
theorem c7_inventory_context_gate :
    (∀ fecha ag s row, (invAtmStep fecha ag s row).2 ≠ [] →
      ((invAtmStep fecha ag s row).1.cur_agrup ≠ "" ∨
       (invAtmStep fecha ag s row).1.cur_tipo ≠ "")) ∧
    invAtmWalk "F" "A" ⟨"", "", ""⟩
      [["TESORO ATM"], ["BILLETES"], ["50000", "12", "0", "0", "0", "600000"]] = [] ∧
    (invAtmStep "F" "A" ⟨"", "", ""⟩
        ["TESORO ATM", "50000", "12", "0", "0", "0", "600000"]).2 =
      [{ FECHA_INVENTARIO := "F", DIVISA := "PYG", AGENCIA := "A",
         AGRUPACION_EFECTIVO := "TESORO ATM", TIPO_VALOR := "",
         DENOMINACION := 50000, DEPOSITO := 12, CJE_DEP := 0, CANJE := 0,
         MONEDA := 0, IMPORTE_TOTAL := 600000 }] ∧
    (invAtmStep "F" "A" ⟨"", "", ""⟩ ["50000", "12", "0", "0", "0", "600000"]).2 = [] :=
  ⟨fun fecha ag s row h => invAtmStep_gate fecha ag s row h, rfl, rfl, rfl⟩

theorem c7_inventory_context_gate_witness :
    ("TESORO ATM" : String) ≠ "" ∨ ("" : String) ≠ "" :=
  c7_inventory_context_gate.1 "F" "A" ⟨"", "", ""⟩
    ["TESORO ATM", "50000", "12", "0", "0", "0", "600000"] (by decide)

theorem agenciaCode_mem_keys (s c : String) (h : agenciaCodeFromText s = some c) :
    c ∈ (["OVD", "ENC", "CON", "ASU", "CDE"] : List String) := by
  unfold agenciaCodeFromText at h
  split at h
  · cases h
  · dsimp only at h
    split at h
    · rename_i code hfind
      cases h
      have := List.mem_of_find?_eq_some hfind
      rw [show agenciaAliases.map Prod.fst = ["OVD", "ENC", "CON", "ASU", "CDE"] from rfl] at this
      exact this
    · obtain ⟨pr, hpr, hf⟩ := List.exists_of_findSome?_eq_some h
      have hc : pr.1 = c := by
        by_cases hx : pr.2.any
            (fun al => containsWord (pyUpper (stripAccents al)) (pyUpper (stripAccents s))) = true
        · rw [if_pos hx] at hf; exact Option.some.inj hf
        · rw [if_neg hx] at hf; cases hf
      subst hc
      have : pr ∈ agenciaAliases := hpr
      fin_cases this <;> simp

/-- C10: the agency normalizer is idempotent; each canonical code
(ASU, CDE, OVD, ENC, CON) is a fixed point; unrecognized text is returned
unchanged (no code is ever invented); and a `None` input maps to the
empty string. -/
theorem c10_agency_idempotent :
    (∀ s : String,
       normalizeAgenciaCol (some (normalizeAgenciaCol (some s))) =
         normalizeAgenciaCol (some s)) ∧
    (∀ c ∈ (["ASU", "CDE", "OVD", "ENC", "CON"] : List String),
       normalizeAgenciaCol (some c) = c) ∧
    (∀ s, agenciaCodeFromText s = none → normalizeAgenciaCol (some s) = s) ∧
    normalizeAgenciaCol none = "" := by
  have hfix : ∀ c ∈ (["OVD", "ENC", "CON", "ASU", "CDE"] : List String),
      normalizeAgenciaCol (some c) = c := by
    intro c hc
    fin_cases hc <;> decide
  refine ⟨?_, ?_, ?_, rfl⟩
  · intro s
    cases h : agenciaCodeFromText s with
    | none => simp [normalizeAgenciaCol, h]
    | some c =>
      have h1 : normalizeAgenciaCol (some s) = c := by simp [normalizeAgenciaCol, h]
      rw [h1]
      exact hfix c (agenciaCode_mem_keys s c h)
  · intro c hc
    refine hfix c ?_
    fin_cases hc <;> simp
  · intro s h
    simp [normalizeAgenciaCol, h]

theorem c10_agency_idempotent_witness :
    normalizeAgenciaCol (some "ASU") = "ASU" ∧
    normalizeAgenciaCol (some "Texto libre") = "Texto libre" :=
  ⟨c10_agency_idempotent.2.1 "ASU" (by simp),
   c10_agency_idempotent.2.2.1 "Texto libre" (by decide)⟩
